import Mathlib

/-!
Shallow embedding of the mail-confirm package (src/index.js): email pattern
validation, MX record resolution, the SMTP mailbox probe state machine, and
the orchestrating check routine, together with theorems settling the spec
claims about them.
-/

set_option maxRecDepth 4000

deriving instance DecidableEq for Except

namespace MailConfirm

/-! ### JavaScript string and number primitives used by the source -/

/-- Character class matched by the regex escape for whitespace in JavaScript. -/
def jsWhitespace (c : Char) : Bool :=
  c == ' ' || c == '\t' || c == '\n' || c == '\r' || c == '\x0b' || c == '\x0c' ||
  c == '\u00A0' || c == '\u1680' || ('\u2000' ≤ c && c ≤ '\u200A') ||
  c == '\u2028' || c == '\u2029' || c == '\u202F' || c == '\u205F' ||
  c == '\u3000' || c == '\uFEFF'

/-- Characters matched by an unescaped dot in a JavaScript regex without the
dot-all flag: anything except a line terminator. -/
def jsDotAny (c : Char) : Bool :=
  !(c == '\n' || c == '\r' || c == '\u2028' || c == '\u2029')

/-- Split a character list at every occurrence of the separator; always returns
at least one (possibly empty) part, like the string split method. -/
def splitOnChar (sep : Char) : List Char → List (List Char)
  | [] => [[]]
  | c :: cs =>
    match splitOnChar sep cs with
    | [] => [[]]
    | p :: ps => if c == sep then [] :: p :: ps else (c :: p) :: ps

/-- Model of Array.prototype.indexOf on string arrays: first index of the
element, or -1 when absent. -/
def jsIndexOf : List String → String → Int
  | [], _ => -1
  | y :: ys, x =>
    if y == x then 0
    else
      let r := jsIndexOf ys x
      if r == -1 then -1 else r + 1

/-- Digits-to-number accumulator for parseInt. -/
def digitsToNat (ds : List Char) : Nat :=
  ds.foldl (fun a c => a * 10 + (c.toNat - '0'.toNat)) 0

/-- Hex digits-to-number accumulator for parseInt with an 0x prefix. -/
def hexDigitsToNat (ds : List Char) : Nat :=
  ds.foldl (fun a c =>
    a * 16 +
      (if c.isDigit then c.toNat - '0'.toNat
       else if 'a' ≤ c && c ≤ 'f' then c.toNat - 'a'.toNat + 10
       else c.toNat - 'A'.toNat + 10)) 0

def isHexDigit (c : Char) : Bool :=
  c.isDigit || ('a' ≤ c && c ≤ 'f') || ('A' ≤ c && c ≤ 'F')

/-- Leading digit run parsed as a natural number; none when there is no digit
(parseInt would yield NaN, modelled as none). -/
def parseDigits (l : List Char) : Option Nat :=
  let ds := l.takeWhile Char.isDigit
  if ds.isEmpty then none else some (digitsToNat ds)

def parseHexDigits (l : List Char) : Option Nat :=
  let ds := l.takeWhile isHexDigit
  if ds.isEmpty then none else some (hexDigitsToNat ds)

/-- After the optional sign, parseInt with no explicit radix strips an 0x or 0X
prefix and reads hexadecimal, otherwise reads decimal. -/
def parseUnsigned : List Char → Option Nat
  | '0' :: 'x' :: rest => parseHexDigits rest
  | '0' :: 'X' :: rest => parseHexDigits rest
  | l => parseDigits l

/-- Model of the parseInt builtin applied to a string (no radix argument): skip
leading whitespace, read an optional sign, then digits; none models NaN. -/
def jsParseInt (l : List Char) : Option Int :=
  let l := l.dropWhile jsWhitespace
  match l with
  | '-' :: rest => (parseUnsigned rest).map (fun n => -(n : Int))
  | '+' :: rest => (parseUnsigned rest).map (fun n => (n : Int))
  | _ => (parseUnsigned l).map (fun n => (n : Int))

/-- Model of the substring(0, 3) call applied to an inbound data chunk. -/
def jsSubstring3 (s : String) : List Char := s.data.take 3

/-- Model of emailAddress.split(at-sign)[0]: everything before the first
at-sign, or the whole string when there is none. -/
def jsSplitHead (s : String) : String :=
  String.mk (s.data.takeWhile (fun c => c != '@'))

/-- Model of emailAddress.split(at-sign)[1]: the part between the first and
second at-sign; none models the undefined value when no at-sign occurs. -/
def jsSplitSecond (s : String) : Option String :=
  match splitOnChar '@' s.data with
  | _ :: p :: _ => some (String.mk p)
  | _ => none

/-! ### The email address regex of resolvePattern

The source tests the address against the anchored regex

  (atom(.atom)* | quoted) at-sign (bracketed-ipv4 | (label.)+alpha{2,})

whose pieces are embedded below; the anchored-match semantics of the test
method is the existence of a decomposition of the whole string. -/

/-- Characters admitted by the local-part atom character class: everything
except angle brackets, parentheses, square brackets, backslash, dot, comma,
semicolon, colon, whitespace, at-sign and double quote. -/
def atomChar (c : Char) : Bool :=
  !(c == '<' || c == '>' || c == '(' || c == ')' || c == '[' || c == ']' ||
    c == '\\' || c == '.' || c == ',' || c == ';' || c == ':' || c == '@' ||
    c == '"' || jsWhitespace c)

/-- One nonempty run of atom characters. -/
def wordOk (l : List Char) : Bool := !l.isEmpty && l.all atomChar

/-- The dotted-atoms alternative of the local part: nonempty words separated
by single dots. -/
def dotAtomOk (l : List Char) : Bool :=
  (splitOnChar '.' l).all wordOk

/-- The quoted alternative of the local part: a double quote, one or more
non-line-terminator characters, and a closing double quote. -/
def quotedOk (l : List Char) : Bool :=
  decide (3 ≤ l.length) && (l.head? == some '"') && (l.getLast? == some '"') &&
    ((l.drop 1).dropLast.all jsDotAny)

def localOk (l : List Char) : Bool := dotAtomOk l || quotedOk l

/-- One to three decimal digits, a segment of the bracketed IPv4 alternative. -/
def ipSegOk (p : List Char) : Bool :=
  decide (1 ≤ p.length) && decide (p.length ≤ 3) && p.all Char.isDigit

/-- The bracketed IPv4 literal alternative of the domain. -/
def bracketIpOk (l : List Char) : Bool :=
  match l with
  | '[' :: rest =>
    match rest.getLast? with
    | some ']' =>
      match splitOnChar '.' rest.dropLast with
      | [a, b, c, d] => ipSegOk a && ipSegOk b && ipSegOk c && ipSegOk d
      | _ => false
    | _ => false
  | _ => false

/-- Characters admitted by a host label: ASCII letters, digits and hyphen. -/
def labelChar (c : Char) : Bool := c.isAlpha || c.isDigit || c == '-'

/-- The dotted-host alternative of the domain: one or more nonempty labels
each followed by a dot, then a final run of at least two ASCII letters. -/
def hostOk (l : List Char) : Bool :=
  match (splitOnChar '.' l).reverse with
  | tld :: labels =>
    !labels.isEmpty && decide (2 ≤ tld.length) && tld.all Char.isAlpha &&
      labels.all (fun p => !p.isEmpty && p.all labelChar)
  | [] => false

def domainOk (l : List Char) : Bool := bracketIpOk l || hostOk l

/-- Try every at-sign as the split point between local part and domain; the
accumulator holds the reversed candidate local part. -/
def emailOkAux (acc : List Char) : List Char → Bool
  | [] => false
  | c :: rest =>
    if c == '@' then
      (localOk acc.reverse && domainOk rest) || emailOkAux (c :: acc) rest
    else emailOkAux (c :: acc) rest

/-- Model of regex.test(emailAddress) for the address regex of the source. -/
def emailRegexTest (s : String) : Bool := emailOkAux [] s.data

/-! ### resolvePattern (src/index.js lines 54-60) -/

/-- Static resolvePattern: the regex test on the whole address, or-ed with the
deny-list lookup of the local part returning -1 (absent). -/
def resolvePattern (emailAddress : String) (invalidMailboxKeywords : List String) : Bool :=
  let mailbox := jsSplitHead emailAddress
  emailRegexTest emailAddress || (jsIndexOf invalidMailboxKeywords mailbox == -1)

/-! ### resolveMx (src/index.js lines 75-83)

The DNS call itself is the external boundary; its settlement (a record list,
or a rejection carrying an error) is the argument of the model. The source
catches every rejection and returns the empty list, and on success sorts the
records with the comparator on priorities. -/

structure MxRecord where
  priority : Int
  exchange : String
deriving DecidableEq, Repr

/-- Comparator a.priority - b.priority of the sort call, as a boolean order. -/
def mxLe (a b : MxRecord) : Bool := a.priority ≤ b.priority

/-- Static resolveMx applied to the settlement of the underlying DNS promise:
rejections collapse to the empty list, fulfilled record lists are sorted
ascending by priority. -/
def resolveMx (outcome : Except String (List MxRecord)) : List MxRecord :=
  match outcome with
  | .error _ => []
  | .ok mxRecords => mxRecords.mergeSort mxLe

/-! ### resolveSmtpMailbox (src/index.js lines 102-148)

The probe is an event-driven machine over one TCP socket. Its mutable state
is the step counter and the transcript array; the inbound events are data
chunks, socket errors, and the idle timeout. The handlers registered by the
source are next (internal), error and data; the machine below is the direct
transcription of those handlers, with writes, socket shutdown and promise
settlement reified as actions. -/

structure SmtpMessage where
  command : String
  message : String
  status : Option Int
deriving DecidableEq, Repr

structure ProbeCfg where
  emailAddress : String
  mxRecords : List MxRecord
  timeout : Int
  mailFrom : String
deriving DecidableEq, Repr

/-- The connection target: mxRecords[0].exchange (the source requires a
nonempty record list; the default head stands for the out-of-contract case). -/
def probeHost (cfg : ProbeCfg) : String :=
  (cfg.mxRecords.headD ⟨0, ""⟩).exchange

/-- The fixed three-command script built at the top of resolveSmtpMailbox. -/
def probeCommands (cfg : ProbeCfg) : List String :=
  ["HELO " ++ probeHost cfg,
   "MAIL FROM: <" ++ cfg.mailFrom ++ ">",
   "RCPT TO: <" ++ cfg.emailAddress ++ ">"]

/-- stepMax = commands.length - 1. -/
def stepMax (cfg : ProbeCfg) : Nat := (probeCommands cfg).length - 1

structure ProbeState where
  step : Nat
  smtpMessages : List SmtpMessage
deriving DecidableEq, Repr

/-- The machine state right after createConnection. -/
def probeInit : ProbeState := ⟨0, []⟩

/-- Observable effects of one handler run: a socket write, or ending the
socket and settling the promise (fulfilled with the transcript, or rejected). -/
inductive ProbeAction where
  | write (line : String)
  | endResolve (transcript : List SmtpMessage)
  | endReject
deriving DecidableEq, Repr

/-- The next handler: while step < stepMax write commands[step] plus CRLF and
increment step, otherwise end the socket and resolve with the transcript. -/
def onNext (cfg : ProbeCfg) (s : ProbeState) : ProbeState × Option ProbeAction :=
  if s.step < stepMax cfg then
    ({ s with step := s.step + 1 },
     some (.write ((probeCommands cfg).getD s.step "" ++ "\r\n")))
  else
    (s, some (.endResolve s.smtpMessages))

/-- The data handler: parse the first three characters of the chunk, push one
transcript entry pairing commands[step] with the chunk and its parsed status,
and emit next exactly when the status is greater than 200. -/
def onData (cfg : ProbeCfg) (s : ProbeState) (chunk : String) : ProbeState × Option ProbeAction :=
  let status := jsParseInt (jsSubstring3 chunk)
  let s := { s with
    smtpMessages := s.smtpMessages ++ [⟨(probeCommands cfg).getD s.step "", chunk, status⟩] }
  match status with
  | some n => if 200 < n then onNext cfg s else (s, none)
  | none => (s, none)

/-- Inbound socket events the session can receive. -/
inductive ProbeEvent where
  | data (chunk : String)
  | error
  | timeout
deriving DecidableEq, Repr

def eventName : ProbeEvent → String
  | .data _ => "data"
  | .error => "error"
  | .timeout => "timeout"

/-- Event names the source registers handlers for (the three smtp.on calls);
note the absence of the timeout event despite the setTimeout call. -/
def registeredEvents : List String := ["next", "error", "data"]

/-- Dispatch one inbound event: the data handler runs onData, the error
handler ends the socket and rejects, and the timeout event has no registered
handler, so nothing happens. -/
def probeStep (cfg : ProbeCfg) (s : ProbeState) : ProbeEvent → ProbeState × Option ProbeAction
  | .data chunk => onData cfg s chunk
  | .error => (s, some .endReject)
  | .timeout => (s, none)

/-- Settlement status of the probe promise after a run. -/
inductive ProbeOutcome where
  | resolved (transcript : List SmtpMessage)
  | rejected
  | pending (s : ProbeState)
deriving DecidableEq, Repr

/-- Fold the machine over an event trace, accumulating the lines written to
the socket, until the promise settles or the trace ends. -/
def runProbeAux (cfg : ProbeCfg) (s : ProbeState) (writes : List String) :
    List ProbeEvent → ProbeOutcome × List String
  | [] => (.pending s, writes)
  | e :: es =>
    match probeStep cfg s e with
    | (s', some (.write line)) => runProbeAux cfg s' (writes ++ [line]) es
    | (_, some (.endResolve t)) => (.resolved t, writes)
    | (_, some .endReject) => (.rejected, writes)
    | (s', none) => runProbeAux cfg s' writes es

/-- One whole resolveSmtpMailbox session over a trace of inbound events. -/
def runProbe (cfg : ProbeCfg) (events : List ProbeEvent) : ProbeOutcome × List String :=
  runProbeAux cfg probeInit [] events

/-! ### The MailConfirm instance state and the check routine
(src/index.js lines 25-43 and 165-227) -/

/-- The state object built by the constructor and mutated by check. -/
structure MCState where
  emailAddress : String
  timeout : Int
  invalidMailboxKeywords : List String
  mailFrom : String
  mailbox : String
  hostname : Option String
  mxRecords : List MxRecord
  smtpMessages : List SmtpMessage
  isValidPattern : Bool
  isValidMx : Bool
  isValidMailbox : Bool
  result : String
deriving DecidableEq, Repr

/-- Constructor arguments; the optional ones may be omitted. -/
structure Config where
  emailAddress : String
  invalidMailboxKeywords : Option (List String)
  timeout : Option Int
  mailFrom : Option String
deriving DecidableEq, Repr

/-- The or-default idiom timeout or 2000: an absent or zero (falsy) number
picks the default. -/
def jsOrInt (v : Option Int) (d : Int) : Int :=
  match v with
  | some n => if n == 0 then d else n
  | none => d

/-- The or-default idiom mailFrom or a placeholder: an absent or empty
(falsy) string picks the default. -/
def jsOrString (v : Option String) (d : String) : String :=
  match v with
  | some s => if s == "" then d else s
  | none => d

/-- The constructor: defaults applied, the address split into mailbox and
hostname, record lists empty, flags false, result empty. -/
def mkState (cfg : Config) : MCState where
  emailAddress := cfg.emailAddress
  timeout := jsOrInt cfg.timeout 2000
  invalidMailboxKeywords := cfg.invalidMailboxKeywords.getD []
  mailFrom := jsOrString cfg.mailFrom "email@example.org"
  mailbox := jsSplitHead cfg.emailAddress
  hostname := jsSplitSecond cfg.emailAddress
  mxRecords := []
  smtpMessages := []
  isValidPattern := false
  isValidMx := false
  isValidMailbox := false
  result := ""

/-- Settlements of the two awaited collaborator promises inside check: the
MX resolution call and the SMTP probe call. -/
structure CheckEnv where
  mxOutcome : Except String (List MxRecord)
  smtpOutcome : Except String (List SmtpMessage)
deriving DecidableEq, Repr

def emptySmtpMessage : SmtpMessage := ⟨"", "", none⟩

/-- The check routine, instrumented with the ordered list of state field
names it assigns; errors carry the message of the thrown Error. The body
follows the source line by line: pattern gate, MX gate inside a try that
rethrows as a fixed message, then the mailbox gate likewise. -/
def checkT (st : MCState) (env : CheckEnv) : Except String (MCState × List String) :=
  let isValidPattern := resolvePattern st.emailAddress st.invalidMailboxKeywords
  let st := { st with isValidPattern := isValidPattern }
  let tr := ["isValidPattern"]
  if isValidPattern = false then
    .ok ({ st with result := "Email pattern is invalid." }, tr ++ ["result"])
  else
    match env.mxOutcome with
    | .error _ => .error "MX record check failed."
    | .ok mxRecords =>
      let isValidMx := decide (0 < mxRecords.length)
      let st := { st with mxRecords := mxRecords, isValidMx := isValidMx }
      let tr := tr ++ ["mxRecords", "isValidMx"]
      if isValidMx = false then
        .ok ({ st with result := "Email server is invalid or not available." }, tr ++ ["result"])
      else
        match env.smtpOutcome with
        | .error _ => .error "Mailbox check failed."
        | .ok smtpMessages =>
          let st := { st with smtpMessages := smtpMessages }
          let tr := tr ++ ["smtpMessages"]
          if smtpMessages.length == 3 then
            if (smtpMessages.getD 2 emptySmtpMessage).status == some 250 then
              .ok ({ st with result := "Mailbox is valid.", isValidMailbox := true },
                   tr ++ ["result", "isValidMailbox"])
            else
              .ok ({ st with result := "Mailbox is invalid.", isValidMailbox := false },
                   tr ++ ["result", "isValidMailbox"])
          else
            .ok ({ st with result := "Could not validate mailbox.", isValidMailbox := false },
                 tr ++ ["result", "isValidMailbox"])

/-- The check routine as the caller sees it: the final state, or the thrown
error message. -/
def check (st : MCState) (env : CheckEnv) : Except String MCState :=
  (checkT st env).map Prod.fst

/-- Whether an Except value is a fulfilled result. -/
def exceptIsOk {ε α : Type} : Except ε α → Bool
  | .ok _ => true
  | .error _ => false

/-- Concrete inputs used by witness and counterexample runs. -/
def cfgDemo : ProbeCfg :=
  { emailAddress := "user@example.com"
    mxRecords := [⟨10, "mx.example.com"⟩]
    timeout := 2000
    mailFrom := "email@example.org" }

def cfgW : Config := ⟨"user@example.com", none, none, none⟩

def envW : CheckEnv := ⟨.ok [], .ok []⟩

def stW : MCState := { mkState cfgW with
  isValidPattern := true
  mxRecords := []
  isValidMx := false
  result := "Email server is invalid or not available." }

def trW : List String := ["isValidPattern", "mxRecords", "isValidMx", "result"]

/-! ### Sanity checks of the regex embedding on concrete addresses -/

example : emailRegexTest "user@example.com" = true := by decide
example : emailRegexTest "no-at-sign" = false := by decide
example : emailRegexTest "a b@example.com" = false := by decide
example : emailRegexTest "\"a b\"@example.com" = true := by decide
example : emailRegexTest "user@[127.0.0.1]" = true := by decide
example : emailRegexTest "user@localhost" = false := by decide
example : resolvePattern "bad pattern" ["x"] = true := by decide
example : resolvePattern "bad pattern" ["bad pattern"] = false := by decide

/-! ### Helper lemmas -/

theorem jsIndexOf_cons (y : String) (ys : List String) (x : String) :
    jsIndexOf (y :: ys) x =
      if y == x then 0
      else if jsIndexOf ys x == -1 then -1 else jsIndexOf ys x + 1 := rfl

theorem jsIndexOf_ge_neg_one (l : List String) (x : String) : -1 ≤ jsIndexOf l x := by
  induction l with
  | nil =>
    show (-1 : Int) ≤ -1
    omega
  | cons y ys ih =>
    rw [jsIndexOf_cons]
    by_cases hb : (y == x) = true
    · rw [if_pos hb]; omega
    · rw [if_neg hb]
      by_cases hr : (jsIndexOf ys x == -1) = true
      · rw [if_pos hr]
      · rw [if_neg hr]
        have hr' : ¬ jsIndexOf ys x = -1 := by simpa using hr
        omega

theorem jsIndexOf_eq_neg_one_iff (l : List String) (x : String) :
    jsIndexOf l x = -1 ↔ x ∉ l := by
  induction l with
  | nil => simp [jsIndexOf]
  | cons y ys ih =>
    rw [jsIndexOf_cons]
    by_cases hb : (y == x) = true
    · have hyx : y = x := by simpa using hb
      subst hyx
      rw [if_pos hb]
      constructor
      · intro h; exact absurd h (by decide)
      · intro h; exact absurd (List.mem_cons_self _ ys) h
    · have hyx : ¬ y = x := by simpa using hb
      rw [if_neg hb]
      by_cases hr : (jsIndexOf ys x == -1) = true
      · have hr' : jsIndexOf ys x = -1 := by simpa using hr
        rw [if_pos hr]
        have hx : x ∉ ys := ih.mp hr'
        constructor
        · intro _ hc
          rcases List.mem_cons.mp hc with hc | hc
          · exact hyx hc.symm
          · exact hx hc
        · intro _; rfl
      · have hr' : ¬ jsIndexOf ys x = -1 := by simpa using hr
        rw [if_neg hr]
        have hge := jsIndexOf_ge_neg_one ys x
        have hx : x ∈ ys := by
          by_contra hc
          exact hr' (ih.mpr hc)
        simp only [List.mem_cons]
        constructor
        · intro hc; omega
        · intro hc; exact absurd (Or.inr hx) hc

/-! ### Claim theorems -/

/-- C6: resolvePattern(email, denyList) is true exactly when the email matches
the address regex or its local part (the substring before the first at-sign)
is absent from the deny-list; in particular a regex-failing address with an
undenied local part is still valid, and the function is deterministic. -/
theorem resolvePattern_or_semantics (e : String) (d : List String) :
    (resolvePattern e d = true ↔ (emailRegexTest e = true ∨ jsSplitHead e ∉ d)) ∧
    (emailRegexTest e = false → jsSplitHead e ∉ d → resolvePattern e d = true) ∧
    resolvePattern e d = resolvePattern e d := by
  refine ⟨?_, ?_, rfl⟩
  · simp only [resolvePattern, Bool.or_eq_true, beq_iff_eq]
    rw [jsIndexOf_eq_neg_one_iff]
  · intro hre hmem
    simp only [resolvePattern, Bool.or_eq_true, beq_iff_eq, hre]
    right
    exact (jsIndexOf_eq_neg_one_iff d (jsSplitHead e)).mpr hmem

/-- Witness for C6 at a concrete input: an address that fails the regex but
whose local part is not denied is reported valid. -/
theorem resolvePattern_or_semantics_witness :
    resolvePattern "bad pattern" ["other"] = true := by
  have h := resolvePattern_or_semantics "bad pattern" ["other"]
  exact h.2.1 (by decide) (by decide)

/-- C7: with the default empty deny-list resolvePattern returns true for every
address string, since indexOf on the empty array is always -1 and the two
tests are combined with a logical or. -/
theorem resolvePattern_empty_denylist (e : String) : resolvePattern e [] = true := by
  simp [resolvePattern, jsIndexOf]

/-- C9: resolveMx never throws: every rejection of the underlying DNS promise
collapses to the empty list, and a fulfilled record list is returned as a
permutation of itself sorted ascending by priority. -/
theorem resolveMx_contract :
    (∀ m : String, resolveMx (.error m) = []) ∧
    (∀ recs : List MxRecord,
      List.Sorted (fun a b => a.priority ≤ b.priority) (resolveMx (.ok recs)) ∧
      (resolveMx (.ok recs)).Perm recs) := by
  constructor
  · intro m; rfl
  · intro recs
    constructor
    · have h := @List.sorted_mergeSort MxRecord mxLe
        (fun a b c hab hbc => by
          simp only [mxLe, decide_eq_true_eq] at hab hbc ⊢; omega)
        (fun a b => by
          simp only [mxLe, Bool.or_eq_true, decide_eq_true_eq]; omega)
        recs
      exact List.Pairwise.imp (fun hab => by
        simpa [mxLe, decide_eq_true_eq] using hab) h
    · exact List.mergeSort_perm recs mxLe

/-- C1 is refuted by the code as written: on a fully successful probe run the
session resolves with three transcript entries, but only the HELO and
MAIL FROM lines are ever written; the RCPT TO command named by the last entry
is never sent, because stepMax is commands.length - 1 and the next handler
resolves once step reaches stepMax instead of writing commands[stepMax].
This run evaluates the machine on an all-accepting server. -/
theorem probe_rcpt_to_never_written :
    runProbe cfgDemo
      [.data "220 mx.example.com ESMTP ready\r\n",
       .data "250 Hello\r\n",
       .data "250 Ok\r\n"] =
    (.resolved
      [⟨"HELO mx.example.com", "220 mx.example.com ESMTP ready\r\n", some 220⟩,
       ⟨"MAIL FROM: <email@example.org>", "250 Hello\r\n", some 250⟩,
       ⟨"RCPT TO: <user@example.com>", "250 Ok\r\n", some 250⟩],
     ["HELO mx.example.com\r\n", "MAIL FROM: <email@example.org>\r\n"]) ∧
    (runProbe cfgDemo
      [.data "220 mx.example.com ESMTP ready\r\n",
       .data "250 Hello\r\n",
       .data "250 Ok\r\n"]).2.contains ("RCPT TO: <user@example.com>" ++ "\r\n") = false := by
  constructor
  · decide
  · decide

/-- C3 is refuted by the code as written: the source calls setTimeout on the
socket but registers no handler for the timeout event (only next, error and
data), so when the timeout fires nothing is written, the socket is not ended,
and the promise neither resolves nor rejects; a silent server leaves the
session pending forever. -/
theorem timeout_event_unhandled :
    registeredEvents.contains (eventName .timeout) = false ∧
    (∀ (cfg : ProbeCfg) (s : ProbeState), probeStep cfg s .timeout = (s, none)) ∧
    runProbe cfgDemo [.timeout] = (.pending probeInit, []) := by
  exact ⟨by decide, fun cfg s => rfl, by decide⟩

/-- C2: one inbound reply appends exactly one transcript entry pairing the
pending command, commands[step], with the parsed leading status code; a
command line is written exactly when that status parses to a number greater
than 200 and the script is not exhausted, in which case the step counter
advances by one; a status of at most 200 (or an unparsable prefix) produces
no write and leaves the step counter unchanged. -/
theorem onData_transition (cfg : ProbeCfg) (s : ProbeState) (chunk : String) :
    (onData cfg s chunk).1.smtpMessages =
      s.smtpMessages ++
        [⟨(probeCommands cfg).getD s.step "", chunk, jsParseInt (jsSubstring3 chunk)⟩] ∧
    ((∃ line, (onData cfg s chunk).2 = some (.write line)) ↔
      ((∃ n, jsParseInt (jsSubstring3 chunk) = some n ∧ 200 < n) ∧ s.step < stepMax cfg)) ∧
    ((onData cfg s chunk).1.step = s.step + 1 ↔
      ((∃ n, jsParseInt (jsSubstring3 chunk) = some n ∧ 200 < n) ∧ s.step < stepMax cfg)) ∧
    (∀ n, jsParseInt (jsSubstring3 chunk) = some n → 200 < n → s.step < stepMax cfg →
      (onData cfg s chunk).2 =
        some (.write ((probeCommands cfg).getD s.step "" ++ "\r\n"))) ∧
    ((∀ n, jsParseInt (jsSubstring3 chunk) = some n → n ≤ 200) →
      (onData cfg s chunk).2 = none ∧ (onData cfg s chunk).1.step = s.step) := by
  cases hst : jsParseInt (jsSubstring3 chunk) with
  | none =>
    refine ⟨?_, ?_, ?_, ?_, ?_⟩
    · simp [onData, hst]
    · simp [onData, hst]
    · simp [onData, hst]
    · intro n hn _ _
      cases hn
    · intro _; simp [onData, hst]
  | some n =>
    by_cases hn : 200 < n
    · by_cases hs : s.step < stepMax cfg
      · refine ⟨?_, ?_, ?_, ?_, ?_⟩
        · simp [onData, onNext, hst, hn, hs]
        · simp [onData, onNext, hst, hn, hs]
        · simp [onData, onNext, hst, hn, hs]
        · intro m hm _ _
          simp [onData, onNext, hst, hn, hs]
        · intro hall
          exact absurd hn (by simpa using hall n rfl)
      · refine ⟨?_, ?_, ?_, ?_, ?_⟩
        · simp [onData, onNext, hst, hn, hs]
        · simp [onData, onNext, hst, hn, hs]
        · simp [onData, onNext, hst, hn, hs]
        · intro m hm _ hs'; exact absurd hs' hs
        · intro hall
          exact absurd hn (by simpa using hall n rfl)
    · refine ⟨?_, ?_, ?_, ?_, ?_⟩
      · simp [onData, hst, hn]
      · simp [onData, hst, hn]
      · simp [onData, hst, hn]
      · intro m hm hm' _
        injection hm with hmn
        omega
      · intro _; simp [onData, hst, hn]

/-- Witness for C2 at a concrete input: the greeting reply with status 220 at
step 0 makes the machine write the HELO line and advance to step 1. -/
theorem onData_transition_witness :
    (onData cfgDemo probeInit "220 mx.example.com ESMTP ready\r\n").2 =
      some (.write ("HELO mx.example.com" ++ "\r\n")) := by
  have h := onData_transition cfgDemo probeInit "220 mx.example.com ESMTP ready\r\n"
  exact h.2.2.2.1 220 (by decide) (by decide) (by decide)

theorem exists_ok {ε α : Type} (x : Except ε α) (h : exceptIsOk x = true) :
    ∃ b, x = .ok b := by
  cases x with
  | error e => exact absurd h (by simp [exceptIsOk])
  | ok b => exact ⟨b, rfl⟩

/-- C4: when the probe resolves, the verdict depends only on the transcript:
exactly 3 entries with third status 250 means a valid mailbox, exactly 3
entries with a different third status means an invalid mailbox, and fewer
than 3 entries means the mailbox could not be validated. -/
theorem check_mailbox_verdict (st : MCState) (env : CheckEnv)
    (recs : List MxRecord) (msgs : List SmtpMessage)
    (hp : resolvePattern st.emailAddress st.invalidMailboxKeywords = true)
    (hmx : env.mxOutcome = .ok recs) (hne : 0 < recs.length)
    (hsm : env.smtpOutcome = .ok msgs) :
    ∃ st', check st env = .ok st' ∧ st'.smtpMessages = msgs ∧
      (msgs.length = 3 → (msgs.getD 2 emptySmtpMessage).status = some 250 →
        st'.isValidMailbox = true ∧ st'.result = "Mailbox is valid.") ∧
      (msgs.length = 3 → (msgs.getD 2 emptySmtpMessage).status ≠ some 250 →
        st'.isValidMailbox = false ∧ st'.result = "Mailbox is invalid.") ∧
      (msgs.length < 3 →
        st'.isValidMailbox = false ∧ st'.result = "Could not validate mailbox.") := by
  obtain ⟨mx, sm⟩ := env
  simp only at hmx hsm
  subst hmx; subst hsm
  have hmxv : decide (0 < recs.length) = true := by simpa using hne
  by_cases h3 : msgs.length = 3
  · by_cases h250 : (msgs.getD 2 emptySmtpMessage).status = some 250
    · have hb3 : (msgs.length == 3) = true := by simpa using h3
      have h250n : (msgs[2]?.getD emptySmtpMessage).status = some 250 := by
        simpa [List.getD] using h250
      have hrun : check st ⟨.ok recs, .ok msgs⟩ =
          .ok { st with
                mxRecords := recs
                smtpMessages := msgs
                isValidPattern := true
                isValidMx := true
                isValidMailbox := true
                result := "Mailbox is valid." } := by
        simp [check, checkT, hp, hmxv, hb3, h250n, Except.map]
      exact ⟨_, hrun, rfl, fun _ _ => ⟨rfl, rfl⟩,
        fun _ hc => absurd h250 hc, fun hc => absurd h3 (by omega)⟩
    · have hb3 : (msgs.length == 3) = true := by simpa using h3
      have h250n : ¬ (msgs[2]?.getD emptySmtpMessage).status = some 250 := by
        simpa [List.getD] using h250
      have hrun : check st ⟨.ok recs, .ok msgs⟩ =
          .ok { st with
                mxRecords := recs
                smtpMessages := msgs
                isValidPattern := true
                isValidMx := true
                isValidMailbox := false
                result := "Mailbox is invalid." } := by
        simp [check, checkT, hp, hmxv, hb3, h250n, Except.map]
      exact ⟨_, hrun, rfl, fun _ hc => absurd hc h250,
        fun _ _ => ⟨rfl, rfl⟩, fun hc => absurd h3 (by omega)⟩
  · have hb3 : (msgs.length == 3) = false := by simpa using h3
    have hrun : check st ⟨.ok recs, .ok msgs⟩ =
        .ok { st with
              mxRecords := recs
              smtpMessages := msgs
              isValidPattern := true
              isValidMx := true
              isValidMailbox := false
              result := "Could not validate mailbox." } := by
      simp [check, checkT, hp, hmxv, hb3, Except.map]
    exact ⟨_, hrun, rfl, fun hc => absurd hc h3,
      fun hc => absurd hc h3, fun _ => ⟨rfl, rfl⟩⟩

/-- Witness for C4 at a concrete input: a run whose three transcript entries
end in status 250 yields a valid mailbox. -/
theorem check_mailbox_verdict_witness :
    ∃ st', check (mkState ⟨"user@example.com", none, none, none⟩)
        ⟨.ok [⟨10, "mx.example.com"⟩],
         .ok [⟨"HELO mx.example.com", "220\r\n", some 220⟩,
              ⟨"MAIL FROM: <email@example.org>", "250\r\n", some 250⟩,
              ⟨"RCPT TO: <user@example.com>", "250\r\n", some 250⟩]⟩ = .ok st' ∧
      st'.isValidMailbox = true ∧ st'.result = "Mailbox is valid." := by
  obtain ⟨st', h1, _, h3, _, _⟩ :=
    check_mailbox_verdict (mkState ⟨"user@example.com", none, none, none⟩)
      ⟨.ok [⟨10, "mx.example.com"⟩],
       .ok [⟨"HELO mx.example.com", "220\r\n", some 220⟩,
            ⟨"MAIL FROM: <email@example.org>", "250\r\n", some 250⟩,
            ⟨"RCPT TO: <user@example.com>", "250\r\n", some 250⟩]⟩
      [⟨10, "mx.example.com"⟩] _ (by decide) rfl (by decide) rfl
  obtain ⟨hv, hr⟩ := h3 (by decide) (by decide)
  exact ⟨st', h1, hv, hr⟩

/-- C5: when the pattern gate passes and MX resolution yields the empty list,
check stops with the fixed server-invalid result, isValidMx false and an
empty transcript, and its outcome does not depend on the SMTP probe at all. -/
theorem check_empty_mx (cfg : Config) (env : CheckEnv)
    (hp : resolvePattern (mkState cfg).emailAddress
            (mkState cfg).invalidMailboxKeywords = true)
    (hmx : env.mxOutcome = .ok []) :
    (∃ st', check (mkState cfg) env = .ok st' ∧
      st'.result = "Email server is invalid or not available." ∧
      st'.isValidMx = false ∧ st'.smtpMessages = []) ∧
    (∀ o o' : Except String (List SmtpMessage),
      check (mkState cfg) ⟨.ok [], o⟩ = check (mkState cfg) ⟨.ok [], o'⟩) := by
  obtain ⟨mx, sm⟩ := env
  simp only at hmx
  subst hmx
  constructor
  · have hrun : check (mkState cfg) ⟨.ok [], sm⟩ =
        .ok { mkState cfg with
              isValidPattern := true
              mxRecords := []
              isValidMx := false
              result := "Email server is invalid or not available." } := by
      simp [check, checkT, hp, Except.map]
    exact ⟨_, hrun, rfl, rfl, rfl⟩
  · intro o o'
    simp [check, checkT, hp]

/-- Witness for C5 at a concrete input. -/
theorem check_empty_mx_witness :
    ∃ st', check (mkState ⟨"user@example.com", none, none, none⟩)
        ⟨.ok [], .ok []⟩ = .ok st' ∧
      st'.result = "Email server is invalid or not available." ∧
      st'.isValidMx = false ∧ st'.smtpMessages = [] := by
  exact (check_empty_mx ⟨"user@example.com", none, none, none⟩
    ⟨.ok [], .ok []⟩ (by decide) rfl).1

/-- C8: check throws exactly two error messages, both fixed strings that
discard the underlying cause: a rejection of the MX resolution call surfaces
as the MX failure message, a rejection of the SMTP probe surfaces as the
mailbox failure message, and every soft failure (invalid pattern, empty MX
list, or any resolved transcript) returns a normal result. -/
theorem check_error_surface (st : MCState) (env : CheckEnv) :
    (∀ m, check st env = .error m →
      m = "MX record check failed." ∨ m = "Mailbox check failed.") ∧
    (resolvePattern st.emailAddress st.invalidMailboxKeywords = true →
      ∀ e, env.mxOutcome = .error e →
        check st env = .error "MX record check failed.") ∧
    (resolvePattern st.emailAddress st.invalidMailboxKeywords = true →
      ∀ recs, env.mxOutcome = .ok recs → 0 < recs.length →
        ∀ e, env.smtpOutcome = .error e →
          check st env = .error "Mailbox check failed.") ∧
    (resolvePattern st.emailAddress st.invalidMailboxKeywords = false →
      ∃ st', check st env = .ok st') ∧
    (env.mxOutcome = .ok [] → ∃ st', check st env = .ok st') ∧
    (∀ recs msgs, env.mxOutcome = .ok recs → env.smtpOutcome = .ok msgs →
      ∃ st', check st env = .ok st') := by
  obtain ⟨mx, sm⟩ := env
  by_cases hp : resolvePattern st.emailAddress st.invalidMailboxKeywords = true
  · cases mx with
    | error e =>
      have hrun : check st ⟨.error e, sm⟩ = .error "MX record check failed." := by
        simp [check, checkT, hp, Except.map]
      refine ⟨?_, ?_, ?_, ?_, ?_, ?_⟩
      · intro m hm
        rw [hrun] at hm
        injection hm with hm'
        exact Or.inl hm'.symm
      · intro _ e' _
        exact hrun
      · intro _ recs hrecs
        cases hrecs
      · intro hc; exact absurd hp (by simp [hc])
      · intro hc; cases hc
      · intro recs msgs hrecs
        cases hrecs
    | ok recs =>
      by_cases hne : 0 < recs.length
      · have hmxv : decide (0 < recs.length) = true := by simpa using hne
        cases sm with
        | error e =>
          have hrun : check st ⟨.ok recs, .error e⟩ =
              .error "Mailbox check failed." := by
            simp [check, checkT, hp, hmxv, Except.map]
          refine ⟨?_, ?_, ?_, ?_, ?_, ?_⟩
          · intro m hm
            rw [hrun] at hm
            injection hm with hm'
            exact Or.inr hm'.symm
          · intro _ e' hc; cases hc
          · intro _ recs' hrecs' _ e' _
            exact hrun
          · intro hc; exact absurd hp (by simp [hc])
          · intro hc
            injection hc with hc'
            subst hc'
            simp at hne
          · intro recs' msgs _ hc; cases hc
        | ok msgs =>
          have hok : exceptIsOk (check st ⟨.ok recs, .ok msgs⟩) = true := by
            by_cases h3 : msgs.length = 3
            · have hb3 : (msgs.length == 3) = true := by simpa using h3
              by_cases h250 : (msgs[2]?.getD emptySmtpMessage).status = some 250
              · simp [check, checkT, hp, hmxv, hb3, h250, Except.map, exceptIsOk]
              · simp [check, checkT, hp, hmxv, hb3, h250, Except.map, exceptIsOk]
            · have hb3 : (msgs.length == 3) = false := by simpa using h3
              simp [check, checkT, hp, hmxv, hb3, Except.map, exceptIsOk]
          have hex := exists_ok _ hok
          refine ⟨?_, ?_, ?_, ?_, ?_, ?_⟩
          · intro m hm
            obtain ⟨st', hst'⟩ := hex
            rw [hst'] at hm
            cases hm
          · intro _ e' hc; cases hc
          · intro _ recs' _ _ e' hc; cases hc
          · intro hc; exact absurd hp (by simp [hc])
          · intro _; exact hex
          · intro _ _ _ _; exact hex
      · have hmxv : decide (0 < recs.length) = false := by simpa using hne
        have hrun : check st ⟨.ok recs, sm⟩ =
            .ok { st with
                  mxRecords := recs
                  isValidPattern := true
                  isValidMx := false
                  result := "Email server is invalid or not available." } := by
          simp [check, checkT, hp, hmxv, Except.map]
        refine ⟨?_, ?_, ?_, ?_, ?_, ?_⟩
        · intro m hm
          rw [hrun] at hm
          cases hm
        · intro _ e' hc; cases hc
        · intro _ recs' hrecs' hne' e' _
          injection hrecs' with hr
          subst hr
          exact absurd hne' hne
        · intro hc; exact absurd hp (by simp [hc])
        · intro _; exact ⟨_, hrun⟩
        · intro _ _ _ _; exact ⟨_, hrun⟩
  · have hpf : resolvePattern st.emailAddress st.invalidMailboxKeywords = false := by
      simpa using hp
    have hrun : check st ⟨mx, sm⟩ =
        .ok { st with
              isValidPattern := false
              result := "Email pattern is invalid." } := by
      simp [check, checkT, hpf, Except.map]
    refine ⟨?_, ?_, ?_, ?_, ?_, ?_⟩
    · intro m hm
      rw [hrun] at hm
      cases hm
    · intro hc; exact absurd hc hp
    · intro hc; exact absurd hc hp
    · intro _; exact ⟨_, hrun⟩
    · intro _; exact ⟨_, hrun⟩
    · intro _ _ _ _; exact ⟨_, hrun⟩

/-- Witness for C8 at a concrete input: a rejected MX resolution call makes
check throw the fixed MX failure message. -/
theorem check_error_surface_witness :
    check (mkState ⟨"user@example.com", none, none, none⟩)
        ⟨.error "ENOTFOUND", .ok []⟩ = .error "MX record check failed." := by
  exact (check_error_surface (mkState ⟨"user@example.com", none, none, none⟩)
    ⟨.error "ENOTFOUND", .ok []⟩).2.1 (by decide) "ENOTFOUND" rfl

/-- C10: on every normal return of check, the request fields fixed by the
constructor are unchanged, the ordered list of state fields assigned during
the run has no duplicates (each field is written at most once and never
reset), and the flags and lists of gates never reached keep their constructor
defaults: after a failed pattern gate both MX and mailbox results stay false
with empty record and transcript lists, and after an empty-MX stop the
mailbox flag stays false with an empty transcript. -/
theorem check_frame (cfg : Config) (env : CheckEnv) (st' : MCState) (tr : List String)
    (h : checkT (mkState cfg) env = .ok (st', tr)) :
    (st'.emailAddress = (mkState cfg).emailAddress ∧
     st'.timeout = (mkState cfg).timeout ∧
     st'.invalidMailboxKeywords = (mkState cfg).invalidMailboxKeywords ∧
     st'.mailFrom = (mkState cfg).mailFrom ∧
     st'.mailbox = (mkState cfg).mailbox ∧
     st'.hostname = (mkState cfg).hostname) ∧
    tr.Nodup ∧
    (resolvePattern (mkState cfg).emailAddress (mkState cfg).invalidMailboxKeywords = false →
      st'.isValidMx = false ∧ st'.isValidMailbox = false ∧
      st'.mxRecords = [] ∧ st'.smtpMessages = []) ∧
    (env.mxOutcome = .ok [] →
      st'.isValidMailbox = false ∧ st'.smtpMessages = []) := by
  obtain ⟨mx, sm⟩ := env
  by_cases hp : resolvePattern (mkState cfg).emailAddress
      (mkState cfg).invalidMailboxKeywords = true
  · cases mx with
    | error e =>
      have hrun : checkT (mkState cfg) ⟨.error e, sm⟩ =
          .error "MX record check failed." := by
        simp [checkT, hp]
      rw [hrun] at h
      cases h
    | ok recs =>
      by_cases hne : 0 < recs.length
      · have hmxv : decide (0 < recs.length) = true := by simpa using hne
        cases sm with
        | error e =>
          have hrun : checkT (mkState cfg) ⟨.ok recs, .error e⟩ =
              .error "Mailbox check failed." := by
            simp [checkT, hp, hmxv]
          rw [hrun] at h
          cases h
        | ok msgs =>
          by_cases h3 : msgs.length = 3
          · have hb3 : (msgs.length == 3) = true := by simpa using h3
            by_cases h250 : (msgs[2]?.getD emptySmtpMessage).status = some 250
            · have hrun : checkT (mkState cfg) ⟨.ok recs, .ok msgs⟩ =
                  .ok ({ mkState cfg with
                         mxRecords := recs
                         smtpMessages := msgs
                         isValidPattern := true
                         isValidMx := true
                         isValidMailbox := true
                         result := "Mailbox is valid." },
                       ["isValidPattern", "mxRecords", "isValidMx",
                        "smtpMessages", "result", "isValidMailbox"]) := by
                simp [checkT, hp, hmxv, hb3, h250]
              rw [hrun] at h
              injection h with h
              rw [Prod.mk.injEq] at h
              obtain ⟨h1, h2⟩ := h
              subst h1; subst h2
              refine ⟨⟨rfl, rfl, rfl, rfl, rfl, rfl⟩, by decide, ?_, ?_⟩
              · intro hpat; exact absurd hp (by simp [hpat])
              · intro hc
                injection hc with hc'
                subst hc'
                simp at hne
            · have hrun : checkT (mkState cfg) ⟨.ok recs, .ok msgs⟩ =
                  .ok ({ mkState cfg with
                         mxRecords := recs
                         smtpMessages := msgs
                         isValidPattern := true
                         isValidMx := true
                         isValidMailbox := false
                         result := "Mailbox is invalid." },
                       ["isValidPattern", "mxRecords", "isValidMx",
                        "smtpMessages", "result", "isValidMailbox"]) := by
                simp [checkT, hp, hmxv, hb3, h250]
              rw [hrun] at h
              injection h with h
              rw [Prod.mk.injEq] at h
              obtain ⟨h1, h2⟩ := h
              subst h1; subst h2
              refine ⟨⟨rfl, rfl, rfl, rfl, rfl, rfl⟩, by decide, ?_, ?_⟩
              · intro hpat; exact absurd hp (by simp [hpat])
              · intro hc
                injection hc with hc'
                subst hc'
                simp at hne
          · have hb3 : (msgs.length == 3) = false := by simpa using h3
            have hrun : checkT (mkState cfg) ⟨.ok recs, .ok msgs⟩ =
                .ok ({ mkState cfg with
                       mxRecords := recs
                       smtpMessages := msgs
                       isValidPattern := true
                       isValidMx := true
                       isValidMailbox := false
                       result := "Could not validate mailbox." },
                     ["isValidPattern", "mxRecords", "isValidMx",
                      "smtpMessages", "result", "isValidMailbox"]) := by
              simp [checkT, hp, hmxv, hb3]
            rw [hrun] at h
            injection h with h
            rw [Prod.mk.injEq] at h
            obtain ⟨h1, h2⟩ := h
            subst h1; subst h2
            refine ⟨⟨rfl, rfl, rfl, rfl, rfl, rfl⟩, by decide, ?_, ?_⟩
            · intro hpat; exact absurd hp (by simp [hpat])
            · intro hc
              injection hc with hc'
              subst hc'
              simp at hne
      · have hmxv : decide (0 < recs.length) = false := by simpa using hne
        have hrun : checkT (mkState cfg) ⟨.ok recs, sm⟩ =
            .ok ({ mkState cfg with
                   mxRecords := recs
                   isValidPattern := true
                   isValidMx := false
                   result := "Email server is invalid or not available." },
                 ["isValidPattern", "mxRecords", "isValidMx", "result"]) := by
          simp [checkT, hp, hmxv]
        rw [hrun] at h
        injection h with h
        rw [Prod.mk.injEq] at h
        obtain ⟨h1, h2⟩ := h
        subst h1; subst h2
        refine ⟨⟨rfl, rfl, rfl, rfl, rfl, rfl⟩, by decide, ?_, ?_⟩
        · intro hpat; exact absurd hp (by simp [hpat])
        · intro _; exact ⟨rfl, rfl⟩
  · have hpf : resolvePattern (mkState cfg).emailAddress
        (mkState cfg).invalidMailboxKeywords = false := by
      simpa using hp
    have hrun : checkT (mkState cfg) ⟨mx, sm⟩ =
        .ok ({ mkState cfg with
               isValidPattern := false
               result := "Email pattern is invalid." },
             ["isValidPattern", "result"]) := by
      simp [checkT, hpf]
    rw [hrun] at h
    injection h with h
    rw [Prod.mk.injEq] at h
    obtain ⟨h1, h2⟩ := h
    subst h1; subst h2
    refine ⟨⟨rfl, rfl, rfl, rfl, rfl, rfl⟩, by decide, ?_, ?_⟩
    · intro _; exact ⟨rfl, rfl, rfl, rfl⟩
    · intro _; exact ⟨rfl, rfl⟩

/-- Witness for C10 at a concrete input: an empty-MX run preserves the
request fields, writes each field at most once, and leaves the mailbox gate
at its defaults. -/
theorem check_frame_witness :
    (stW.emailAddress = (mkState cfgW).emailAddress ∧
     stW.timeout = (mkState cfgW).timeout ∧
     stW.invalidMailboxKeywords = (mkState cfgW).invalidMailboxKeywords ∧
     stW.mailFrom = (mkState cfgW).mailFrom ∧
     stW.mailbox = (mkState cfgW).mailbox ∧
     stW.hostname = (mkState cfgW).hostname) ∧
    trW.Nodup ∧
    (resolvePattern (mkState cfgW).emailAddress
        (mkState cfgW).invalidMailboxKeywords = false →
      stW.isValidMx = false ∧ stW.isValidMailbox = false ∧
      stW.mxRecords = [] ∧ stW.smtpMessages = []) ∧
    (envW.mxOutcome = .ok [] →
      stW.isValidMailbox = false ∧ stW.smtpMessages = []) :=
  check_frame cfgW envW stW trW (by decide)

end MailConfirm
